import Mathlib

/-!
Shallow embedding of the DLA (diffusion-limited aggregation) simulator
from `src/main.rs`.

Modelling conventions:
* The injected random source (`R: Rng` in the Rust code) is a deterministic
  stream of naturals with a cursor.  `gen_range lo hi` maps the next stream
  value into `[lo, hi)`; `gen_f64` maps it into a rational in `[0, 1)`
  (53-bit mantissa, the contract of `rand`'s uniform `f64` draw); `choose`
  maps it to an index into the `DIRS` array.
* `f64` quantities that the simulation branches on (`t`, `stickiness`,
  uniform draws) are embedded as rationals.
* The cell vector `Vec<bool>` of length `GRID_WIDTH * GRID_HEIGHT` is
  embedded as a total function `Nat → Bool` over row-major indices; the
  `as usize` casts on the coordinates are `Int.toNat` (every `set` call
  site passes nonnegative coordinates, proved below).
* The unbounded inner particle-walk loop and the frame batches are given
  explicit fuel; `none` means the fuel ran out, never an error.
-/

/-- Deterministic random source: a stream of naturals and a cursor.  This is
the injected `R: Rng` dependency of the Rust code. -/
structure Rng where
  seq : Nat → Nat
  pos : Nat

/-- Consume one value from the stream. -/
def Rng.next (r : Rng) : Nat × Rng :=
  (r.seq r.pos, ⟨r.seq, r.pos + 1⟩)

/-- `rng.gen_range(lo, hi)`: a uniform integer in `[lo, hi)`. -/
def Rng.gen_range (r : Rng) (lo hi : Int) : Int × Rng :=
  let (n, r') := r.next
  (lo + (n : Int) % (hi - lo), r')

/-- `rng.gen::<f64>()`: a uniform draw in `[0, 1)` with 53-bit resolution. -/
def Rng.gen_f64 (r : Rng) : ℚ × Rng :=
  let (n, r') := r.next
  (mkRat (n % 2 ^ 53 : Nat) (2 ^ 53), r')

def WINDOW_HEIGHT : Nat := 960
def WINDOW_WIDTH : Nat := 1280
def BLOCK_SIZE : Nat := 2
def GRID_WIDTH : Nat := WINDOW_WIDTH / BLOCK_SIZE
def GRID_HEIGHT : Nat := WINDOW_HEIGHT / BLOCK_SIZE
def FRAME_DURATION : ℚ := mkRat 1 10

/-- The eight Moore-neighborhood offset vectors, in the order of the Rust
`DIRS` array in `update_one_frame`. -/
def DIRS : List (Int × Int) :=
  [(-1, -1), (0, -1), (1, -1),
   (-1,  0),          (1,  0),
   (-1,  1), (0,  1), (1,  1)]

/-- `rng.choose(&DIRS).unwrap()`: a uniform element of `DIRS`. -/
def Rng.choose (r : Rng) : (Int × Int) × Rng :=
  let (n, r') := r.next
  (DIRS.getD (n % DIRS.length) (0, 0), r')

/-- The simulation grid: row-major boolean cells, accumulated time `t`
(seconds), the owned random source, the stickiness probability and the
pause flag. -/
structure Grid where
  cells : Nat → Bool
  t : ℚ
  rng : Rng
  stickiness : ℚ
  running : Bool

/-- `Grid::new_empty`: all cells unoccupied, `t = 0`, `running = true`. -/
def Grid.new_empty (rng : Rng) (stickiness : ℚ) : Grid :=
  { cells := fun _ => false
    t := 0
    rng := rng
    stickiness := stickiness
    running := true }

/-- `Grid::set`: mark cell `(x, y)` occupied at row-major index
`y * GRID_WIDTH + x`. -/
def Grid.set (g : Grid) (x y : Int) : Grid :=
  { g with cells := fun i => if i = y.toNat * GRID_WIDTH + x.toNat then true else g.cells i }

/-- `Grid::new`: empty grid with the single center cell
`(GRID_WIDTH / 2, GRID_HEIGHT / 2)` occupied. -/
def Grid.new (rng : Rng) (stickiness : ℚ) : Grid :=
  (Grid.new_empty rng stickiness).set ((GRID_WIDTH : Int) / 2) ((GRID_HEIGHT : Int) / 2)

/-- `Grid::in_bounds`: `0 < x && x < GRID_WIDTH && 0 < y && y < GRID_HEIGHT`. -/
def Grid.in_bounds (x y : Int) : Bool :=
  decide (0 < x) && decide (x < (GRID_WIDTH : Int)) &&
  decide (0 < y) && decide (y < (GRID_HEIGHT : Int))

/-- `Grid::test` (the `is_occupied` query): in bounds and the cell is set. -/
def Grid.test (g : Grid) (x y : Int) : Bool :=
  Grid.in_bounds x y && g.cells (y.toNat * GRID_WIDTH + x.toNat)

/-- `Grid::is_adjacent`: some cell of the Moore neighborhood of `(x, y)` is
occupied. -/
def Grid.is_adjacent (g : Grid) (x y : Int) : Bool :=
     g.test (x - 1) (y - 1)
  || g.test x       (y - 1)
  || g.test (x + 1) (y - 1)
  || g.test (x - 1) y
  || g.test (x + 1) y
  || g.test (x - 1) (y + 1)
  || g.test x       (y + 1)
  || g.test (x + 1) (y + 1)

/-- Outcome of one particle walk: the grid afterwards (random source
included) and, when the particle stuck, the coordinate it occupied. -/
structure WalkOut where
  grid : Grid
  stuck : Option (Int × Int)

/-- The stick condition of the inner loop, with its random side effect:
`self.is_adjacent(x, y) && self.rng.gen::<f64>() < self.stickiness`.  The
`&&` short-circuits, so the uniform draw is consumed only when the current
coordinate is adjacent to an occupied cell. -/
def stickCheck (g : Grid) (x y : Int) : Bool × Grid :=
  if g.is_adjacent x y then
    let p := g.rng.gen_f64
    (decide (p.1 < g.stickiness), { g with rng := p.2 })
  else (false, g)

/-- The inner `loop` of `Grid::update_one_frame`, with fuel: at each step,
if the stick condition holds, occupy the current coordinate and terminate;
otherwise drift by a uniformly chosen `DIRS` offset and escape when the new
coordinate is out of bounds.  `none` means the fuel ran out with the loop
still running. -/
def walkLoop : Nat → Grid → Int → Int → Option WalkOut
  | 0, _, _, _ => none
  | fuel + 1, g, x, y =>
    let s := stickCheck g x y
    if s.1 then
      some ⟨Grid.set s.2 x y, some (x, y)⟩
    else
      let c := s.2.rng.choose
      let x' := x + c.1.1
      let y' := y + c.1.2
      if Grid.in_bounds x' y' then
        walkLoop fuel { s.2 with rng := c.2 } x' y'
      else
        some ⟨{ s.2 with rng := c.2 }, none⟩

/-- The `for _ in 0..60` loop of `Grid::update_one_frame`, with a walk
counter: each iteration picks a uniformly random start in
`[0, GRID_WIDTH) × [0, GRID_HEIGHT)` and runs one particle walk.  Returns
the final grid together with the list of coordinates the frame occupied
(the `set` calls it made) and the list of walk starting coordinates. -/
def frameLoop : Nat → Nat → Grid → Option (Grid × List (Int × Int) × List (Int × Int))
  | 0, _, g => some (g, [], [])
  | k + 1, fuel, g =>
    let px := g.rng.gen_range 0 (GRID_WIDTH : Int)
    let py := px.2.gen_range 0 (GRID_HEIGHT : Int)
    match walkLoop fuel { g with rng := py.2 } px.1 py.1 with
    | none => none
    | some w =>
      match frameLoop k fuel w.grid with
      | none => none
      | some (g', sticks, starts) =>
        some (g', w.stuck.toList ++ sticks, (px.1, py.1) :: starts)

/-- `Grid::update_one_frame`: 60 particle walks. -/
def Grid.update_one_frame (fuel : Nat) (g : Grid) :
    Option (Grid × List (Int × Int) × List (Int × Int)) :=
  frameLoop 60 fuel g

/-- The coordinates one frame occupies (`[]` when the fuel ran out). -/
def frameSticks (fuel : Nat) (g : Grid) : List (Int × Int) :=
  ((Grid.update_one_frame fuel g).map fun o => o.2.1).getD []

/-- The starting coordinates of one frame's walks (`[]` when the fuel ran
out). -/
def frameStarts (fuel : Nat) (g : Grid) : List (Int × Int) :=
  ((Grid.update_one_frame fuel g).map fun o => o.2.2).getD []

/-- The `while self.t > FRAME_DURATION` loop of `Grid::update`, with an
iteration budget `ofuel` and per-walk fuel `wfuel`. -/
def updateLoop : Nat → Nat → Grid → Option Grid
  | 0, _, g => if FRAME_DURATION < g.t then none else some g
  | n + 1, wfuel, g =>
    if FRAME_DURATION < g.t then
      match g.update_one_frame wfuel with
      | none => none
      | some (g', _, _) => updateLoop n wfuel { g' with t := g'.t - FRAME_DURATION }
    else some g

/-- `Grid::update` (the `advance(dt)` operation): accumulate `dt` into `t`,
then run one simulation frame per `FRAME_DURATION` of accumulated time. -/
def Grid.update (ofuel wfuel : Nat) (dt : ℚ) (g : Grid) : Option Grid :=
  updateLoop ofuel wfuel { g with t := g.t + dt }

/-- Number of set cells of the backing array. -/
def occupiedCount (g : Grid) : Nat :=
  ((List.range (GRID_WIDTH * GRID_HEIGHT)).filter fun i => g.cells i).length

/-- The all-zero random stream (a legitimate deterministic source). -/
def rng0 : Rng := ⟨fun _ => 0, 0⟩

/-! ### Basic properties of the random source -/

theorem gen_f64_nonneg (r : Rng) : 0 ≤ r.gen_f64.1 := by
  simp only [Rng.gen_f64, Rng.next]
  rw [Rat.mkRat_eq_div]
  positivity

theorem gen_f64_lt_one (r : Rng) : r.gen_f64.1 < 1 := by
  simp only [Rng.gen_f64, Rng.next]
  rw [Rat.mkRat_eq_div]
  rw [div_lt_one (by positivity)]
  have h : (r.seq r.pos % 2 ^ 53 : Nat) < 2 ^ 53 := Nat.mod_lt _ (by positivity)
  calc ((r.seq r.pos % 2 ^ 53 : Nat) : ℚ) < ((2 ^ 53 : Nat) : ℚ) := by exact_mod_cast h
    _ = ((2 : ℚ) ^ 53) := by push_cast; ring

theorem gen_range_zero_nonneg (r : Rng) (hi : Int) (hpos : 0 < hi) :
    0 ≤ (r.gen_range 0 hi).1 := by
  simp only [Rng.gen_range, Rng.next]
  have := Int.emod_nonneg (((r.seq r.pos : Nat) : Int)) (by omega : hi - 0 ≠ 0)
  omega

theorem gen_range_zero_lt (r : Rng) (hi : Int) (hpos : 0 < hi) :
    (r.gen_range 0 hi).1 < hi := by
  simp only [Rng.gen_range, Rng.next]
  have := Int.emod_lt_of_pos (((r.seq r.pos : Nat) : Int)) (by omega : 0 < hi - 0)
  omega

/-! ### Field-preservation facts for the stick condition and `set` -/

theorem stickCheck_cells (g : Grid) (x y : Int) : (stickCheck g x y).2.cells = g.cells := by
  unfold stickCheck
  split <;> rfl

theorem stickCheck_stickiness (g : Grid) (x y : Int) :
    (stickCheck g x y).2.stickiness = g.stickiness := by
  unfold stickCheck
  split <;> rfl

theorem stickCheck_running (g : Grid) (x y : Int) :
    (stickCheck g x y).2.running = g.running := by
  unfold stickCheck
  split <;> rfl

theorem stickCheck_t (g : Grid) (x y : Int) : (stickCheck g x y).2.t = g.t := by
  unfold stickCheck
  split <;> rfl

theorem set_cells_mono (g : Grid) (x y : Int) (i : Nat) (h : g.cells i = true) :
    (g.set x y).cells i = true := by
  simp only [Grid.set]
  split <;> simp [h]

theorem set_stickiness (g : Grid) (x y : Int) : (g.set x y).stickiness = g.stickiness := rfl

theorem set_running (g : Grid) (x y : Int) : (g.set x y).running = g.running := rfl

theorem in_bounds_eq_true_iff (x y : Int) :
    Grid.in_bounds x y = true ↔
      0 < x ∧ x < (GRID_WIDTH : Int) ∧ 0 < y ∧ y < (GRID_HEIGHT : Int) := by
  simp [Grid.in_bounds, and_assoc]

/-! ### Invariants of the particle walk -/

theorem walkLoop_some (fuel : Nat) :
    ∀ (g : Grid) (x y : Int) (w : WalkOut), walkLoop fuel g x y = some w →
      (∀ i, g.cells i = true → w.grid.cells i = true) ∧
      w.grid.stickiness = g.stickiness ∧ w.grid.running = g.running := by
  induction fuel with
  | zero => intro g x y w h; simp [walkLoop] at h
  | succ n ih =>
    intro g x y w h
    simp only [walkLoop] at h
    split at h
    · rcases Option.some.inj h with rfl
      refine ⟨fun i hi => ?_, ?_, ?_⟩
      · exact set_cells_mono _ _ _ _ (by rw [stickCheck_cells]; exact hi)
      · rw [set_stickiness, stickCheck_stickiness]
      · rw [set_running, stickCheck_running]
    · split at h
      · have h' := ih _ _ _ _ h
        refine ⟨fun i hi => ?_, ?_, ?_⟩
        · exact h'.1 i (by show (stickCheck g x y).2.cells i = true; rw [stickCheck_cells]; exact hi)
        · rw [h'.2.1]; exact stickCheck_stickiness g x y
        · rw [h'.2.2]; exact stickCheck_running g x y
      · rcases Option.some.inj h with rfl
        refine ⟨fun i hi => ?_, ?_, ?_⟩
        · show (stickCheck g x y).2.cells i = true
          rw [stickCheck_cells]; exact hi
        · exact stickCheck_stickiness g x y
        · exact stickCheck_running g x y

theorem walkLoop_stuck_in_range (fuel : Nat) :
    ∀ (g : Grid) (x y : Int) (w : WalkOut) (p : Int × Int),
      0 ≤ x → x < (GRID_WIDTH : Int) → 0 ≤ y → y < (GRID_HEIGHT : Int) →
      walkLoop fuel g x y = some w → w.stuck = some p →
      0 ≤ p.1 ∧ p.1 < (GRID_WIDTH : Int) ∧ 0 ≤ p.2 ∧ p.2 < (GRID_HEIGHT : Int) := by
  induction fuel with
  | zero => intro g x y w p _ _ _ _ h _; simp [walkLoop] at h
  | succ n ih =>
    intro g x y w p hx0 hxW hy0 hyH h hp
    simp only [walkLoop] at h
    split at h
    · rcases Option.some.inj h with rfl
      simp only at hp
      rcases Option.some.inj hp with rfl
      exact ⟨hx0, hxW, hy0, hyH⟩
    · split at h
      · next hin =>
        rw [in_bounds_eq_true_iff] at hin
        exact ih _ _ _ _ _ (le_of_lt hin.1) hin.2.1 (le_of_lt hin.2.2.1) hin.2.2.2 h hp
      · rcases Option.some.inj h with rfl
        simp at hp

/-! ### Invariants of one simulation frame -/

theorem frameLoop_some (k : Nat) :
    ∀ (fuel : Nat) (g : Grid) (out : Grid × List (Int × Int) × List (Int × Int)),
      frameLoop k fuel g = some out →
      (∀ i, g.cells i = true → out.1.cells i = true) ∧
      out.1.stickiness = g.stickiness ∧ out.1.running = g.running ∧
      (∀ p ∈ out.2.1,
        0 ≤ p.1 ∧ p.1 < (GRID_WIDTH : Int) ∧ 0 ≤ p.2 ∧ p.2 < (GRID_HEIGHT : Int)) ∧
      (∀ p ∈ out.2.2,
        0 ≤ p.1 ∧ p.1 < (GRID_WIDTH : Int) ∧ 0 ≤ p.2 ∧ p.2 < (GRID_HEIGHT : Int)) := by
  induction k with
  | zero =>
    intro fuel g out h
    rcases Option.some.inj (by simpa [frameLoop] using h) with rfl
    exact ⟨fun i hi => hi, rfl, rfl, by simp, by simp⟩
  | succ n ih =>
    intro fuel g out h
    simp only [frameLoop] at h
    split at h
    · exact absurd h (by simp)
    · next w hw =>
      split at h
      · exact absurd h (by simp)
      · next g' sticks starts hrec =>
        rcases Option.some.inj h with rfl
        have hx0 := gen_range_zero_nonneg g.rng (GRID_WIDTH : Int) (by decide)
        have hxW := gen_range_zero_lt g.rng (GRID_WIDTH : Int) (by decide)
        have hy0 := gen_range_zero_nonneg (g.rng.gen_range 0 (GRID_WIDTH : Int)).2
          (GRID_HEIGHT : Int) (by decide)
        have hyH := gen_range_zero_lt (g.rng.gen_range 0 (GRID_WIDTH : Int)).2
          (GRID_HEIGHT : Int) (by decide)
        have hwalk := walkLoop_some fuel _ _ _ _ hw
        have hrec' := ih fuel w.grid (g', sticks, starts) hrec
        refine ⟨fun i hi => hrec'.1 i (hwalk.1 i hi), ?_, ?_, ?_, ?_⟩
        · rw [hrec'.2.1, hwalk.2.1]
        · rw [hrec'.2.2.1, hwalk.2.2]
        · intro p hp
          rcases List.mem_append.1 hp with hp1 | hp2
          · have hstuck : w.stuck = some p := by
              simpa using hp1
            exact walkLoop_stuck_in_range fuel _ _ _ _ _ hx0 hxW hy0 hyH hw hstuck
          · exact hrec'.2.2.2.1 p hp2
        · intro p hp
          rcases List.mem_cons.1 hp with rfl | hp2
          · exact ⟨hx0, hxW, hy0, hyH⟩
          · exact hrec'.2.2.2.2 p hp2

/-! ### Invariants of `advance` -/

theorem updateLoop_some (n : Nat) :
    ∀ (wfuel : Nat) (g g' : Grid), updateLoop n wfuel g = some g' →
      (∀ i, g.cells i = true → g'.cells i = true) ∧
      g'.stickiness = g.stickiness ∧ g'.running = g.running := by
  induction n with
  | zero =>
    intro wfuel g g' h
    simp only [updateLoop] at h
    split at h
    · exact absurd h (by simp)
    · rcases Option.some.inj h with rfl
      exact ⟨fun i hi => hi, rfl, rfl⟩
  | succ n ih =>
    intro wfuel g g' h
    simp only [updateLoop] at h
    split at h
    · split at h
      · exact absurd h (by simp)
      · next gf sticks starts hf =>
        have hframe := frameLoop_some 60 wfuel g (gf, sticks, starts) hf
        have hrec := ih wfuel _ _ h
        exact ⟨fun i hi => hrec.1 i (hframe.1 i hi),
          by rw [hrec.2.1]; exact hframe.2.1,
          by rw [hrec.2.2]; exact hframe.2.2.1⟩
    · rcases Option.some.inj h with rfl
      exact ⟨fun i hi => hi, rfl, rfl⟩

theorem updateLoop_no_frame (n wfuel : Nat) (g : Grid) (h : ¬ FRAME_DURATION < g.t) :
    updateLoop n wfuel g = some g := by
  cases n <;> simp [updateLoop, h]

/-! ### Concrete fixtures -/

/-- A stream that starts a walk at `(321, 240)`, directly right of the
center seed `(320, 240)`, and afterwards yields zeros. -/
def rngA : Rng := ⟨fun i => if i = 0 then 321 else if i = 1 then 240 else 0, 0⟩

/-- A seeded grid owning `rngA`, with the default stickiness `0.1`. -/
def gA : Grid := Grid.new rngA (mkRat 1 10)

/-! ### Claim theorems -/

/-- Claim C1, counterexample: the claim says `is_occupied(x, y)` is false for
`x = width - 1` at every reachable state, but `x = width - 1` satisfies the
in-bounds rule (`0 < x < width`), so the engine's occupy operation at
`(width - 1, 240)` — legal per its precondition — makes `is_occupied`
return true there. -/
theorem c1_cex_right_edge_occupiable :
    Grid.test ((Grid.new_empty rng0 (mkRat 1 10)).set ((GRID_WIDTH : Int) - 1) 240)
      ((GRID_WIDTH : Int) - 1) 240 = true := by decide

/-- Claim C1 (amended): at every state (reachable or not), `is_occupied(x,y)`
is false for every coordinate with `x ≤ 0`, `x ≥ width`, `y ≤ 0` or
`y ≥ height`; in particular for `x = 0`, `y = 0` and everything outside
`[0,width) × [0,height)`.  The cells `x = width - 1` and `y = height - 1`
are not excluded (they satisfy the in-bounds rule). -/
theorem c1_border_invariant_amended (g : Grid) (x y : Int)
    (h : x ≤ 0 ∨ (GRID_WIDTH : Int) ≤ x ∨ y ≤ 0 ∨ (GRID_HEIGHT : Int) ≤ y) :
    g.test x y = false := by
  have hb : Grid.in_bounds x y = false := by
    cases hbb : Grid.in_bounds x y
    · rfl
    · rw [in_bounds_eq_true_iff] at hbb
      omega
  simp [Grid.test, hb]

/-- Claim C1 (amended), witness at `x = 0`. -/
theorem c1_border_invariant_amended_witness :
    ((0 : Int) ≤ 0 ∨ (GRID_WIDTH : Int) ≤ 0 ∨ (240 : Int) ≤ 0 ∨ (GRID_HEIGHT : Int) ≤ 240) ∧
    (Grid.new rng0 (mkRat 1 10)).test 0 240 = false :=
  ⟨Or.inl le_rfl, c1_border_invariant_amended _ 0 240 (Or.inl le_rfl)⟩

/-- Claim C2, counterexample: with the all-zero random source, the first walk
of a frame starts at `(0, 0)`, which does not satisfy the in-bounds rule
`0 < x < width ∧ 0 < y < height`. -/
theorem c2_cex_walk_start_not_in_bounds :
    ((0 : Int), (0 : Int)) ∈ frameStarts 1 (Grid.new_empty rng0 (mkRat 1 10)) ∧
    Grid.in_bounds 0 0 = false := by
  exact ⟨by decide, by decide⟩

/-- Claim C2 (amended): every walk of one simulation frame begins at a
coordinate `(x, y)` with `0 ≤ x < width` and `0 ≤ y < height` (the range of
`gen_range(0, width)`/`gen_range(0, height)`), not the strictly interior
`0 < x` / `0 < y` of the in-bounds rule. -/
theorem c2_walk_starts_in_range (fuel : Nat) (g : Grid) (p : Int × Int)
    (hp : p ∈ frameStarts fuel g) :
    0 ≤ p.1 ∧ p.1 < (GRID_WIDTH : Int) ∧ 0 ≤ p.2 ∧ p.2 < (GRID_HEIGHT : Int) := by
  unfold frameStarts Grid.update_one_frame at hp
  rcases hf : frameLoop 60 fuel g with _ | out
  · rw [hf] at hp
    simp at hp
  · rw [hf] at hp
    simp only [Option.map_some', Option.getD_some] at hp
    exact (frameLoop_some 60 fuel g out hf).2.2.2.2 p hp

/-- Claim C2 (amended), witness: the all-zero-stream start `(0, 0)` is in
`[0, width) × [0, height)`. -/
theorem c2_walk_starts_in_range_witness :
    ((0 : Int), (0 : Int)) ∈ frameStarts 1 (Grid.new_empty rng0 (mkRat 1 10)) ∧
    (0 ≤ ((0 : Int), (0 : Int)).1 ∧ ((0 : Int), (0 : Int)).1 < (GRID_WIDTH : Int) ∧
      0 ≤ ((0 : Int), (0 : Int)).2 ∧ ((0 : Int), (0 : Int)).2 < (GRID_HEIGHT : Int)) :=
  ⟨by decide, c2_walk_starts_in_range 1 (Grid.new_empty rng0 (mkRat 1 10)) ((0, 0)) (by decide)⟩

/-- Claim C6: `is_occupied` fails closed — for every grid state and every
coordinate that is out of bounds under the in-bounds rule, it returns false
(the embedding is total: no error is possible). -/
theorem c6_is_occupied_fails_closed (g : Grid) (x y : Int)
    (h : Grid.in_bounds x y = false) : g.test x y = false := by
  simp [Grid.test, h]

/-- Claim C6, witness at the out-of-bounds coordinate `(-5, 3)`. -/
theorem c6_is_occupied_fails_closed_witness :
    Grid.in_bounds (-5) 3 = false ∧ (Grid.new rng0 (mkRat 1 10)).test (-5) 3 = false :=
  ⟨by decide, c6_is_occupied_fails_closed _ (-5) 3 (by decide)⟩

theorem GRID_WIDTH_eq : GRID_WIDTH = 640 := rfl

theorem GRID_HEIGHT_eq : GRID_HEIGHT = 480 := rfl

theorem ite_true_false_eq_true {P : Prop} [Decidable P] :
    (if P then true else false) = true ↔ P := by
  split <;> simp_all

/-- Claim C7: `create_seeded` (the code's `Grid::new`, at the program's fixed
dimensions `width = 640`, `height = 480`) produces a grid whose only
occupied cell is `(width / 2, height / 2)` (integer division), with
`accumulatedTime = 0` and `running = true`, for every random source and
stickiness. -/
theorem c7_seeded_single_center_cell (r : Rng) (s : ℚ) :
    (Grid.new r s).t = 0 ∧ (Grid.new r s).running = true ∧
    ∀ x y : Int, (Grid.new r s).test x y = true ↔
      x = (GRID_WIDTH : Int) / 2 ∧ y = (GRID_HEIGHT : Int) / 2 := by
  refine ⟨rfl, rfl, fun x y => ?_⟩
  constructor
  · intro h
    simp only [Grid.new, Grid.new_empty, Grid.set, Grid.test, Bool.and_eq_true,
      in_bounds_eq_true_iff, ite_true_false_eq_true] at h
    obtain ⟨⟨h1, h2, h3, h4⟩, hcell⟩ := h
    rw [GRID_WIDTH_eq] at h2 hcell ⊢
    rw [GRID_HEIGHT_eq] at h4 hcell ⊢
    omega
  · rintro ⟨rfl, rfl⟩
    rfl

/-- Claim C4: occupancy is monotonic.  For the occupy operation (`set`), one
simulation frame, and `advance` with any delta: every cell reading occupied
(`is_occupied = true`) before the operation still reads occupied after it;
no operation clears a cell. -/
theorem c4_occupancy_monotonic :
    (∀ (g : Grid) (x y a b : Int), g.test a b = true → (g.set x y).test a b = true) ∧
    (∀ (fuel : Nat) (g : Grid) (a b : Int), g.test a b = true →
      ∀ out, Grid.update_one_frame fuel g = some out → out.1.test a b = true) ∧
    (∀ (ofuel wfuel : Nat) (dt : ℚ) (g : Grid) (a b : Int), g.test a b = true →
      ∀ g', Grid.update ofuel wfuel dt g = some g' → g'.test a b = true) := by
  refine ⟨?_, ?_, ?_⟩
  · intro g x y a b h
    rw [Grid.test, Bool.and_eq_true] at h ⊢
    exact ⟨h.1, set_cells_mono g x y _ h.2⟩
  · intro fuel g a b h out hout
    rw [Grid.test, Bool.and_eq_true] at h ⊢
    exact ⟨h.1, (frameLoop_some 60 fuel g out hout).1 _ h.2⟩
  · intro ofuel wfuel dt g a b h g' hg'
    rw [Grid.test, Bool.and_eq_true] at h ⊢
    rw [Grid.update] at hg'
    exact ⟨h.1, (updateLoop_some ofuel wfuel _ g' hg').1 _ h.2⟩

/-- Claim C4, corroborating instance: the center seed stays occupied through
an occupy at `(5, 5)` and through an `advance` that runs zero frames. -/
theorem c4_occupancy_monotonic_witness :
    (gA.set 5 5).test 320 240 = true ∧
    ∀ g', Grid.update 0 1 0 gA = some g' → g'.test 320 240 = true :=
  ⟨c4_occupancy_monotonic.1 gA 5 5 320 240 (by decide),
   fun g' hg' => c4_occupancy_monotonic.2.2 0 1 0 gA 320 240 (by decide) g' hg'⟩

/-- Claim C9: `advance` mutates only the cells, the accumulated time and the
random source: for every `advance(dt)` call that completes, the grid's
`stickiness` and `running` fields are unchanged. -/
theorem c9_advance_preserves_stickiness_running (ofuel wfuel : Nat) (dt : ℚ) (g : Grid) :
    Option.all
      (fun g' => decide (g'.stickiness = g.stickiness) && decide (g'.running = g.running))
      (Grid.update ofuel wfuel dt g) = true := by
  rcases h : Grid.update ofuel wfuel dt g with _ | g'
  · rfl
  · rw [Grid.update] at h
    have h' := updateLoop_some ofuel wfuel _ g' h
    simp only [Option.all_some, Bool.and_eq_true, decide_eq_true_eq]
    exact ⟨h'.2.1, h'.2.2⟩

/-- Claim C10: every occupy performed by one simulation frame is at a
coordinate `(x, y)` with `0 ≤ x < width` and `0 ≤ y < height`, so its
row-major index `y * width + x` is strictly below `width * height`, the
length of the cell array: the out-of-range indexing branch is unreachable. -/
theorem c10_frame_sets_in_range (fuel : Nat) (g : Grid) (p : Int × Int)
    (hp : p ∈ frameSticks fuel g) :
    0 ≤ p.1 ∧ p.1 < (GRID_WIDTH : Int) ∧ 0 ≤ p.2 ∧ p.2 < (GRID_HEIGHT : Int) ∧
    p.2.toNat * GRID_WIDTH + p.1.toNat < GRID_WIDTH * GRID_HEIGHT := by
  unfold frameSticks Grid.update_one_frame at hp
  rcases hf : frameLoop 60 fuel g with _ | out
  · rw [hf] at hp
    simp at hp
  · rw [hf] at hp
    simp only [Option.map_some', Option.getD_some] at hp
    have hb := (frameLoop_some 60 fuel g out hf).2.2.2.1 p hp
    refine ⟨hb.1, hb.2.1, hb.2.2.1, hb.2.2.2, ?_⟩
    rw [GRID_WIDTH_eq, GRID_HEIGHT_eq]
    rw [GRID_WIDTH_eq] at hb
    rw [GRID_HEIGHT_eq] at hb
    omega

/-- Claim C10, witness: the frame run on `gA` occupies `(321, 240)`, which is
in range. -/
theorem c10_frame_sets_in_range_witness :
    ((321 : Int), (240 : Int)) ∈ frameSticks 1 gA ∧
    (0 ≤ ((321 : Int), (240 : Int)).1 ∧ ((321 : Int), (240 : Int)).1 < (GRID_WIDTH : Int) ∧
      0 ≤ ((321 : Int), (240 : Int)).2 ∧ ((321 : Int), (240 : Int)).2 < (GRID_HEIGHT : Int) ∧
      ((321 : Int), (240 : Int)).2.toNat * GRID_WIDTH + ((321 : Int), (240 : Int)).1.toNat <
        GRID_WIDTH * GRID_HEIGHT) :=
  ⟨by decide, c10_frame_sets_in_range 1 gA (321, 240) (by decide)⟩

/-- Claim C5: with stickiness 1, at any loop step whose current coordinate is
adjacent to an occupied cell — in particular the first such step — the walk
occupies that exact coordinate and terminates on that step: the fresh
uniform draw is always below 1, so no further drift occurs. -/
theorem c5_stickiness_one_sticks_immediately (g : Grid) (x y : Int) (fuel : Nat)
    (hs : g.stickiness = 1) (hadj : g.is_adjacent x y = true) :
    walkLoop (fuel + 1) g x y =
      some ⟨Grid.set { g with rng := g.rng.gen_f64.2 } x y, some (x, y)⟩ := by
  have hq : g.rng.gen_f64.1 < g.stickiness := by
    rw [hs]
    exact gen_f64_lt_one g.rng
  simp only [walkLoop, stickCheck, hadj]
  simp [hq]

/-- Claim C5, witness: a walk whose current coordinate `(321, 240)` touches
the center seed of a stickiness-1 grid sticks there at once. -/
theorem c5_stickiness_one_sticks_immediately_witness :
    (Grid.new rngA 1).stickiness = 1 ∧
    (Grid.new rngA 1).is_adjacent 321 240 = true ∧
    walkLoop 5 (Grid.new rngA 1) 321 240 =
      some ⟨Grid.set { Grid.new rngA 1 with rng := (Grid.new rngA 1).rng.gen_f64.2 } 321 240,
        some (321, 240)⟩ :=
  ⟨rfl, by decide,
   c5_stickiness_one_sticks_immediately (Grid.new rngA 1) 321 240 4 rfl (by decide)⟩

/-- Claim C3: from zero accumulated time (and stickiness 1), `advance(0.05)`
twice gives the same occupied-cell count as `advance(0.1)` once from the
same state, and a single `advance(0.05)` yields zero newly occupied cells:
the frame loop only runs while the accumulated time strictly exceeds 0.1. -/
theorem c3_advance_frame_quantized (g : Grid) (h0 : g.t = 0) (hs : g.stickiness = 1)
    (ofuel wfuel : Nat) :
    ∃ g1 g2 g3,
      Grid.update ofuel wfuel (mkRat 1 20) g = some g1 ∧
      Grid.update ofuel wfuel (mkRat 1 20) g1 = some g2 ∧
      Grid.update ofuel wfuel (mkRat 1 10) g = some g3 ∧
      occupiedCount g2 = occupiedCount g3 ∧
      occupiedCount g1 = occupiedCount g := by
  have hadd : mkRat 1 20 + mkRat 1 20 = mkRat 1 10 := by
    simp only [Rat.mkRat_eq_div]
    norm_num
  refine ⟨{ g with t := g.t + mkRat 1 20 },
    { g with t := g.t + mkRat 1 20 + mkRat 1 20 },
    { g with t := g.t + mkRat 1 10 }, ?_, ?_, ?_, rfl, rfl⟩
  · exact updateLoop_no_frame ofuel wfuel _ (by
      show ¬ FRAME_DURATION < g.t + mkRat 1 20
      rw [h0, zero_add]
      decide)
  · exact updateLoop_no_frame ofuel wfuel _ (by
      show ¬ FRAME_DURATION < g.t + mkRat 1 20 + mkRat 1 20
      rw [h0, zero_add, hadd]
      decide)
  · exact updateLoop_no_frame ofuel wfuel _ (by
      show ¬ FRAME_DURATION < g.t + mkRat 1 10
      rw [h0, zero_add]
      decide)

/-- Claim C3, witness on a concrete seeded stickiness-1 grid. -/
theorem c3_advance_frame_quantized_witness :
    (Grid.new rng0 1).t = 0 ∧ (Grid.new rng0 1).stickiness = 1 ∧
    ∃ g1 g2 g3,
      Grid.update 1 1 (mkRat 1 20) (Grid.new rng0 1) = some g1 ∧
      Grid.update 1 1 (mkRat 1 20) g1 = some g2 ∧
      Grid.update 1 1 (mkRat 1 10) (Grid.new rng0 1) = some g3 ∧
      occupiedCount g2 = occupiedCount g3 ∧
      occupiedCount g1 = occupiedCount (Grid.new rng0 1) :=
  ⟨rfl, rfl, c3_advance_frame_quantized (Grid.new rng0 1) rfl rfl 1 1⟩

/-! ### The spiral seeder (`odd_grid`)

The seeder computes with `f64` trigonometry; its numeric content is embedded
over `ℝ` (exact real arithmetic standing for the `f64` expressions). -/

/-- `let cx = GRID_WIDTH as f64 / 2.0`. -/
noncomputable def spiral_cx : ℝ := (GRID_WIDTH : ℝ) / 2

/-- `let cy = GRID_HEIGHT as f64 / 2.0`. -/
noncomputable def spiral_cy : ℝ := (GRID_HEIGHT : ℝ) / 2

/-- `let r = f64::min(cx, cy) * 0.9`. -/
noncomputable def spiral_r : ℝ := min spiral_cx spiral_cy * 0.9

/-- Rust `as i32` on a finite in-range float: truncation toward zero. -/
noncomputable def f64_as_i32 (v : ℝ) : Int := if 0 ≤ v then ⌊v⌋ else -⌊-v⌋

/-- The point the loop body of `odd_grid` computes for index `i`:
`t = i / 100`, `a = 3π t`, `(cx + t·r·cos a, cy + t·r·sin a)`. -/
noncomputable def spiralPoint (i : Nat) : ℝ × ℝ :=
  (spiral_cx + ((i : ℝ) / 100) * spiral_r * Real.cos (3 * Real.pi * ((i : ℝ) / 100)),
   spiral_cy + ((i : ℝ) / 100) * spiral_r * Real.sin (3 * Real.pi * ((i : ℝ) / 100)))

/-- The 100 truncated cells the spiral seeder occupies, in loop order. -/
noncomputable def spiralSets : List (Int × Int) :=
  (List.range 100).map fun i => (f64_as_i32 (spiralPoint i).1, f64_as_i32 (spiralPoint i).2)

/-- `odd_grid`: an empty grid with stickiness `0.1`, then one `set` per
`i in 0..100` at the truncated spiral point. -/
noncomputable def odd_grid (rng : Rng) : Grid :=
  (List.range 100).foldl
    (fun g i => g.set (f64_as_i32 (spiralPoint i).1) (f64_as_i32 (spiralPoint i).2))
    (Grid.new_empty rng (mkRat 1 10))

/-- Claim C8: the spiral seeder performs exactly 100 occupy operations, one
per `i in 0..100` at the integer-truncated point
`(cx + t·r·cos(3πt), cy + t·r·sin(3πt))` with `t = i/100`, and every such
point lies within radius `0.9 · min(cx, cy)` of the center `(cx, cy)`. -/
theorem c8_spiral_seeder :
    (∀ rng : Rng, odd_grid rng =
      spiralSets.foldl (fun g p => g.set p.1 p.2) (Grid.new_empty rng (mkRat 1 10))) ∧
    spiralSets.length = 100 ∧
    (∀ i : Nat, i < 100 →
      ((spiralPoint i).1 - spiral_cx) ^ 2 + ((spiralPoint i).2 - spiral_cy) ^ 2 ≤
        (0.9 * min spiral_cx spiral_cy) ^ 2) := by
  refine ⟨fun rng => ?_, by simp [spiralSets], fun i hi => ?_⟩
  · rw [odd_grid, spiralSets, List.foldl_map]
  · have ha : (spiralPoint i).1 - spiral_cx
        = ((i : ℝ) / 100) * spiral_r * Real.cos (3 * Real.pi * ((i : ℝ) / 100)) := by
      simp [spiralPoint]
    have hb : (spiralPoint i).2 - spiral_cy
        = ((i : ℝ) / 100) * spiral_r * Real.sin (3 * Real.pi * ((i : ℝ) / 100)) := by
      simp [spiralPoint]
    rw [ha, hb]
    have hcs := Real.cos_sq_add_sin_sq (3 * Real.pi * ((i : ℝ) / 100))
    have ht0 : (0 : ℝ) ≤ (i : ℝ) / 100 := by positivity
    have ht1 : ((i : ℝ) / 100) ≤ 1 := by
      rw [div_le_one (by norm_num)]
      exact_mod_cast hi.le
    have hr0 : (0 : ℝ) ≤ spiral_r := by
      rw [spiral_r]
      have hmin : (0 : ℝ) ≤ min spiral_cx spiral_cy :=
        le_min (by rw [spiral_cx]; positivity) (by rw [spiral_cy]; positivity)
      nlinarith
    have hrr : (0.9 * min spiral_cx spiral_cy) ^ 2 = spiral_r ^ 2 := by
      rw [spiral_r]
      ring
    rw [hrr]
    have key : (((i : ℝ) / 100) * spiral_r) ^ 2 ≤ spiral_r ^ 2 := by
      have hsq : ((i : ℝ) / 100) ^ 2 ≤ 1 := by nlinarith
      nlinarith [sq_nonneg spiral_r]
    calc ((i : ℝ) / 100 * spiral_r * Real.cos (3 * Real.pi * ((i : ℝ) / 100))) ^ 2 +
          ((i : ℝ) / 100 * spiral_r * Real.sin (3 * Real.pi * ((i : ℝ) / 100))) ^ 2
        = (((i : ℝ) / 100) * spiral_r) ^ 2 *
            (Real.cos (3 * Real.pi * ((i : ℝ) / 100)) ^ 2 +
             Real.sin (3 * Real.pi * ((i : ℝ) / 100)) ^ 2) := by ring
      _ = (((i : ℝ) / 100) * spiral_r) ^ 2 := by rw [hcs, mul_one]
      _ ≤ spiral_r ^ 2 := key
